import Mathlib

/-!
Wayfarer — verification of the client-side story engine.

Shallow embedding of the core logic of the Wayfarer storytelling app:

* src/services/geminiService.ts — calculateTotalSegments,
  generateStoryOutline, generateSegment (post-API processing);
* src/App.tsx — withTimeout, the continuous-buffering useEffect,
  generateNextSegment, handleGenerateStory;
* src/components/StoryPlayer.tsx — the segment-end handler, the
  onended wall-clock check, and pause/resume offset bookkeeping;
* src/components/RoutePlanner.tsx — the directions-result branch of
  handleCalculate.

JavaScript numbers carrying wall-clock times and durations are modelled
as rationals (ℚ); integer counters as Nat/Int.  Audio buffers are
opaque: only their presence (Option) and duration matter to the logic.
Remote API calls are modelled by their outcomes (Except), and the
stateful React handlers either by explicit result states or by the
ordered list of state-mutating events they perform.
-/

namespace Wayfarer

/-- App phases, in the numeric order the TS enum gives them
(App.tsx compares them numerically: appState < AppState.READY_TO_PLAY,
appState >= AppState.GENERATING_INITIAL_SEGMENT).  Modelled from the
spec: types.ts is not among the provided sources; the four members and
their order are reconstructed from their uses in App.tsx. -/
inductive AppState where
  | PLANNING
  | GENERATING_INITIAL_SEGMENT
  | READY_TO_PLAY
  | PLAYING
deriving DecidableEq

/-- Numeric value of the TS enum member. -/
def AppState.toNat : AppState → Nat
  | .PLANNING => 0
  | .GENERATING_INITIAL_SEGMENT => 1
  | .READY_TO_PLAY => 2
  | .PLAYING => 3

/-- A story segment (types.ts, used throughout): its 1-based index, its
text, and its decoded audio buffer, which may be absent (null).  The
buffer itself is opaque; Unit records presence. -/
structure StorySegment where
  index : Nat
  text : String
  audioBuffer : Option Unit
deriving DecidableEq

/-- The story state (AudioStory in types.ts): estimate of the total
number of segments, the chapter outline, and the generated segments. -/
structure AudioStory where
  totalSegmentsEstimate : Nat
  outline : List String
  segments : List StorySegment
deriving DecidableEq

/-- Route details handed from the planner to the generator (RouteDetails
in types.ts); only the fields the verified logic reads are kept, with
the leg duration in seconds as a rational. -/
structure RouteDetails where
  startAddress : String
  endAddress : String
  distance : String
  duration : String
  durationSeconds : ℚ
deriving DecidableEq

/-! geminiService.ts: calculateTotalSegments -/

/-- Constant TARGET_SEGMENT_DURATION_SEC in geminiService.ts. -/
def TARGET_SEGMENT_DURATION_SEC : ℚ := 45

/-- Function calculateTotalSegments (geminiService.ts):
Math.max(1, Math.ceil(durationSeconds / 45)). -/
def calculateTotalSegments (durationSeconds : ℚ) : ℤ :=
  max 1 ⌈durationSeconds / TARGET_SEGMENT_DURATION_SEC⌉

/-! geminiService.ts: generateStoryOutline and generateSegment.

The remote model response is abstracted to the value the surrounding
code inspects: for the outline, the JSON.parse result of response.text
(or an error covering a failed call, missing text, and unparsable
text — all throw inside the same try and land in the same catch); for a
segment, the optional response.text. -/

/-- A JavaScript value as it can flow out of the outline code path:
JSON.parse output (strings, numbers, arrays, other) plus undefined,
which arises when indexing an empty array. -/
inductive JsValue where
  | jstr (s : String)
  | jnum (q : ℚ)
  | jarr (elems : List JsValue)
  | jundef
  | jother

/-- Fallback outline beat (geminiService.ts catch clause). -/
def OUTLINE_FALLBACK : String := "Continue the journey toward the destination."

/-- Function generateStoryOutline (geminiService.ts), given the parsed
response.  On any thrown error (API failure, missing text, JSON parse
failure — all modelled by Except.error) or a non-array parse the catch
clause returns totalSegments copies of the fallback beat.  For an
array, the code pads to totalSegments by repeating the LAST element
(outline[outline.length - 1], which is undefined for an empty array)
and then slices to exactly totalSegments. -/
def generateStoryOutline (totalSegments : Nat)
    (response : Except Unit JsValue) : List JsValue :=
  match response with
  | .error _ => List.replicate totalSegments (.jstr OUTLINE_FALLBACK)
  | .ok v =>
    match v with
    | .jarr elems =>
      let last := elems.getLast?.getD .jundef
      let padded :=
        if elems.length < totalSegments then
          elems ++ List.replicate (totalSegments - elems.length) last
        else elems
      padded.take totalSegments
    | _ => List.replicate totalSegments (.jstr OUTLINE_FALLBACK)

/-- JavaScript String.prototype.trim: strips whitespace from both ends
(written over the character list so that it evaluates). -/
def jsTrim (s : String) : String :=
  ⟨((s.data.dropWhile Char.isWhitespace).reverse.dropWhile
      Char.isWhitespace).reverse⟩

/-- Fallback segment text (geminiService.ts generateSegment). -/
def SEGMENT_FALLBACK : String := "The journey continues..."

/-- Function generateSegment (geminiService.ts), given the optional
response.text of a successful call: the segment text is
response.text?.trim() || "The journey continues..." (both a missing
text and an empty trimmed text are falsy), the index is the requested
one, and audioBuffer is null. -/
def generateSegment (segmentIndex : Nat) (responseText : Option String) :
    StorySegment :=
  { index := segmentIndex
    text :=
      match responseText.map jsTrim with
      | some t => if t = "" then SEGMENT_FALLBACK else t
      | none => SEGMENT_FALLBACK
    audioBuffer := none }

/-! App.tsx: withTimeout -/

/-- Promise.race of two settlers, each with a wall-clock settle time and
an outcome: the earlier one wins (ties modelled in favour of the first
argument; the claims only speak of strict orderings). -/
def race {α : Type} (a b : ℚ × Except String α) : Except String α :=
  if a.1 ≤ b.1 then a.2 else b.2

/-- Function withTimeout (App.tsx): races the wrapped promise (settling
at time settleTime with outcome) against a timer that rejects with
Error(errorMsg) at time ms. -/
def withTimeout {α : Type} (settleTime : ℚ) (outcome : Except String α)
    (ms : ℚ) (errorMsg : String) : Except String α :=
  race (settleTime, outcome) (ms, .error errorMsg)

/-! App.tsx: the stateful handlers, as event traces.

The two async handlers mutate React state and refs; each is modelled as
the ordered list of mutating events it performs, parameterised by the
outcomes of its awaited API calls (Except.error also covers a
withTimeout rejection).  API-call events record the timeout the call
site wraps them with (none would mean an unwrapped call). -/

/-- One state-mutating or observable step of App.tsx. -/
inductive AppEvent where
  | setGuard (b : Bool)
  | setBackgroundFlag (b : Bool)
  | setAppState (s : AppState)
  | setGenerationError (msg : Option String)
  | setLoadingMessage (msg : String)
  | apiOutlineCall (timeoutMs : Option Nat)
  | apiTextCall (timeoutMs : Option Nat)
  | apiAudioCall (timeoutMs : Option Nat)
  | storyUpdate
  | logError
deriving DecidableEq

/-- Whether an event is one of the remote generation calls. -/
def AppEvent.isApiCall : AppEvent → Bool
  | .apiOutlineCall _ => true
  | .apiTextCall _ => true
  | .apiAudioCall _ => true
  | _ => false

/-- The timeout an API-call event was wrapped with; none for events that
are not API calls. -/
def AppEvent.apiTimeout : AppEvent → Option (Option Nat)
  | .apiOutlineCall t => some t
  | .apiTextCall t => some t
  | .apiAudioCall t => some t
  | _ => none

/-- Whether an event writes a non-null user-facing error message. -/
def AppEvent.setsUserError : AppEvent → Bool
  | .setGenerationError (some _) => true
  | _ => false

/-- Whether every API call in a trace is wrapped in a timeout. -/
def allCallsWrapped (evs : List AppEvent) : Bool :=
  evs.all fun ev =>
    match ev.apiTimeout with
    | some t => t.isSome
    | none => true

/-- Final app state after running a trace from an initial state (last
setAppState wins). -/
def finalAppState (s₀ : AppState) (evs : List AppEvent) : AppState :=
  evs.foldl (fun acc ev => match ev with | .setAppState s => s | _ => acc) s₀

/-- Final generationError after running a trace from an initial value
(last setGenerationError wins). -/
def finalGenerationError (g₀ : Option String) (evs : List AppEvent) :
    Option String :=
  evs.foldl (fun acc ev => match ev with | .setGenerationError m => m | _ => acc)
    g₀

/-- Function generateNextSegment (App.tsx), as the trace of events it
performs and the final value of isGeneratingRef.current.  hasRoute and
hasStory are the null checks on route and story; guard is
isGeneratingRef.current on entry; textOk and audioOk say whether the
awaited text and audio generations succeed.  The guard is set before
the first API call; a failure is logged to the console only; the
finally clause resets the guard and the background flag on every path
past the early return. -/
def generateNextSegment (hasRoute hasStory guard textOk audioOk : Bool) :
    List AppEvent × Bool :=
  if ¬hasRoute ∨ ¬hasStory ∨ guard then ([], guard)
  else if ¬textOk then
    ([.setGuard true, .setBackgroundFlag true, .apiTextCall (some 60000),
      .logError, .setGuard false, .setBackgroundFlag false], false)
  else if ¬audioOk then
    ([.setGuard true, .setBackgroundFlag true, .apiTextCall (some 60000),
      .apiAudioCall (some 100000), .logError, .setGuard false,
      .setBackgroundFlag false], false)
  else
    ([.setGuard true, .setBackgroundFlag true, .apiTextCall (some 60000),
      .apiAudioCall (some 100000), .storyUpdate, .setGuard false,
      .setBackgroundFlag false], false)

/-- The message chosen by the catch clause of handleGenerateStory: the
timeout wording when the error message includes "timed out" or
"timeout", the generic wording otherwise.  String.prototype.includes is
modelled via splitOn. -/
def initialErrorMessage (errMsg : String) : String :=
  if 2 ≤ (errMsg.splitOn "timed out").length ∨
     2 ≤ (errMsg.splitOn "timeout").length then
    "The journey is long, and our storytellers timed out. Try a shorter segment?"
  else
    "We couldn\x27t start the story. Please check your route."

/-- Trace of the catch clause of handleGenerateStory (App.tsx): back to
PLANNING with a user-facing message derived from the error. -/
def initialCatchTrace (errMsg : String) : List AppEvent :=
  [.setAppState .PLANNING, .setGenerationError (some (initialErrorMessage errMsg))]

/-- Function handleGenerateStory (App.tsx), as the trace of events it
performs, parameterised by the outcomes of its three awaited calls
(outline, first segment text, first segment audio), each wrapped in
withTimeout at the call site with the timeout recorded on the event. -/
def handleGenerateStory (outline text audio : Except String Unit) :
    List AppEvent :=
  [.setGenerationError none, .setAppState .GENERATING_INITIAL_SEGMENT,
   .setLoadingMessage "Mapping the narrative arc...",
   .apiOutlineCall (some 60000)] ++
  match outline with
  | .error e => initialCatchTrace e
  | .ok _ =>
    [.setLoadingMessage "Writing the opening chapter...",
     .apiTextCall (some 60000)] ++
    match text with
    | .error e => initialCatchTrace e
    | .ok _ =>
      [.setLoadingMessage "Synthesizing neural voice...",
       .apiAudioCall (some 100000)] ++
      match audio with
      | .error e => initialCatchTrace e
      | .ok _ => [.storyUpdate, .setAppState .READY_TO_PLAY]

/-! App.tsx: the continuous-buffering effect -/

/-- One run of the Continuous Buffering Engine useEffect in App.tsx.
Inputs are the dependencies the effect reads; the result is the segment
index passed to generateNextSegment, or none when the effect does
nothing.  isGenerating is isGeneratingRef.current. -/
def bufferEngineStep (story : Option AudioStory) (route : Option RouteDetails)
    (appState : AppState) (currentPlayingIndex : Nat) (isGenerating : Bool) :
    Option Nat :=
  match story, route with
  | some story, some _ =>
    if appState.toNat < AppState.READY_TO_PLAY.toNat then none
    else
      let totalGenerated := story.segments.length
      let neededBufferIndex := currentPlayingIndex + 3
      if totalGenerated < neededBufferIndex ∧
         totalGenerated < story.totalSegmentsEstimate ∧
         isGenerating = false then
        some (totalGenerated + 1)
      else none
  | _, _ => none

/-! App.tsx: the setStory updater inside generateNextSegment -/

/-- The functional updater passed to setStory in generateNextSegment
(App.tsx lines 130–137): if a segment with the incoming index is
already present the previous state is returned unchanged; otherwise the
new segment is appended and the list re-sorted by ascending index
(.sort((a, b) => a.index - b.index)). -/
def setStoryUpdater (prev : AudioStory) (newSeg : StorySegment) : AudioStory :=
  if prev.segments.any (fun s => s.index == newSeg.index) then prev
  else
    { prev with
      segments :=
        (prev.segments ++ [newSeg]).insertionSort
          fun a b => a.index ≤ b.index }

/-- Comparison by index (the comparator a.index - b.index) is total. -/
instance : IsTotal StorySegment fun a b => a.index ≤ b.index :=
  ⟨fun a b => Nat.le_total a.index b.index⟩

/-- Comparison by index is transitive. -/
instance : IsTrans StorySegment fun a b => a.index ≤ b.index :=
  ⟨fun _ _ _ hab hbc => Nat.le_trans hab hbc⟩

/-! StoryPlayer.tsx: the playback engine -/

/-- Playback state of StoryPlayer.tsx: the current array position into
story.segments, the isPlaying and isBuffering flags, and
segmentOffsetRef (seconds into the current clip). -/
structure PlayerState where
  currentSegmentIndex : Nat
  isPlaying : Bool
  isBuffering : Bool
  segmentOffset : ℚ
deriving DecidableEq

/-- Truthiness of story.segments[i]?.audioBuffer: the element exists and
its buffer is non-null. -/
def segmentBufferedAt (story : AudioStory) (i : Nat) : Bool :=
  match story.segments[i]? with
  | some seg => seg.audioBuffer.isSome
  | none => false

/-- Function handleSegmentEnd (StoryPlayer.tsx): advances to the next
index and clears the clip offset; then either starts the next clip from
offset 0 (returned as some (arrayPos, offset), the arguments of
source.start via playSegment), or — when the next clip has no buffer —
stops playback if the next index has reached the estimate with no
background generation running, and otherwise enters buffering. -/
def handleSegmentEnd (story : AudioStory) (isBackgroundGenerating : Bool)
    (st : PlayerState) : PlayerState × Option (Nat × ℚ) :=
  let nextIndex := st.currentSegmentIndex + 1
  let st1 := { st with currentSegmentIndex := nextIndex, segmentOffset := 0 }
  if segmentBufferedAt story nextIndex then
    (st1, some (nextIndex, 0))
  else if story.totalSegmentsEstimate ≤ nextIndex ∧
          isBackgroundGenerating = false then
    ({ st1 with isPlaying := false }, none)
  else
    ({ st1 with isBuffering := true }, none)

/-- The onended callback installed by playSegment (StoryPlayer.tsx):
with elapsed = audioContext.currentTime - startTimeRef.current, it runs
handleSegmentEnd only when elapsed >= duration - 0.5, and otherwise
leaves the state alone (an intentional stop). -/
def onSegmentEnded (duration elapsed : ℚ) (story : AudioStory)
    (isBackgroundGenerating : Bool) (st : PlayerState) :
    PlayerState × Option (Nat × ℚ) :=
  if duration - 1/2 ≤ elapsed then handleSegmentEnd story isBackgroundGenerating st
  else (st, none)

/-- Wall-clock bookkeeping of the audio engine (StoryPlayer.tsx refs):
startTimeRef and segmentOffsetRef. -/
structure AudioClock where
  startTime : ℚ
  segmentOffset : ℚ
deriving DecidableEq

/-- The position within the current clip implied by the bookkeeping at
wall-clock time now: audioContext.currentTime - startTimeRef.current
(the elapsed computed in the onended callback). -/
def playbackPosition (clock : AudioClock) (now : ℚ) : ℚ :=
  now - clock.startTime

/-- The pause branch of togglePlayback (StoryPlayer.tsx): records
segmentOffsetRef.current = audioContext.currentTime - startTimeRef.current. -/
def pausePlayback (clock : AudioClock) (now : ℚ) : AudioClock :=
  { clock with segmentOffset := now - clock.startTime }

/-- The clock effect of playSegment(segment, offset) (StoryPlayer.tsx):
startTimeRef.current = audioContext.currentTime - offset, and the clip
is started at source.start(0, offset); the started offset is returned
alongside. -/
def playSegmentClock (clock : AudioClock) (offset now : ℚ) : AudioClock × ℚ :=
  ({ clock with startTime := now - offset }, offset)

/-- The resume branch of togglePlayback (StoryPlayer.tsx): plays the
current segment from segmentOffsetRef.current. -/
def resumePlayback (clock : AudioClock) (now : ℚ) : AudioClock × ℚ :=
  playSegmentClock clock clock.segmentOffset now

/-! RoutePlanner.tsx: handleCalculate, directions-OK branch -/

/-- The route leg returned by the directions service (fields read by
handleCalculate), duration in seconds. -/
structure DirectionsLeg where
  startAddress : String
  endAddress : String
  distanceText : String
  durationText : String
  durationValue : ℚ
deriving DecidableEq

/-- Error message for the 4-hour limit (RoutePlanner.tsx). -/
def JOURNEY_TOO_LONG_ERROR : String := "Journey too long. Try a route under 4 hours."

/-- The DirectionsStatus.OK branch of handleCalculate
(RoutePlanner.tsx): if the leg duration exceeds 14400 seconds the error
message is set and onRouteFound is not called (Except.error); otherwise
onRouteFound receives the route details built from the leg
(Except.ok). -/
def handleCalculateOkRoute (leg : DirectionsLeg) : Except String RouteDetails :=
  if leg.durationValue > 14400 then .error JOURNEY_TOO_LONG_ERROR
  else
    .ok
      { startAddress := leg.startAddress
        endAddress := leg.endAddress
        distance := leg.distanceText
        duration := leg.durationText
        durationSeconds := leg.durationValue }

/-! Theorems -/

/-- C9: for every durationSeconds, calculateTotalSegments equals
max(1, ceil(durationSeconds / 45)), is always at least one, and is
exactly one for zero or negative durations. -/
theorem calculateTotalSegments_spec (d dNonpos : ℚ)
    (h : dNonpos ≤ 0) :
    calculateTotalSegments d = max 1 ⌈d / 45⌉ ∧
    1 ≤ calculateTotalSegments d ∧
    calculateTotalSegments dNonpos = 1 := by
  refine ⟨rfl, le_max_left _ _, ?_⟩
  have hq : dNonpos / TARGET_SEGMENT_DURATION_SEC ≤ 0 := by
    rw [TARGET_SEGMENT_DURATION_SEC, div_nonpos_iff]
    exact Or.inr ⟨h, by norm_num⟩
  have hc : ⌈dNonpos / TARGET_SEGMENT_DURATION_SEC⌉ ≤ 1 :=
    Int.ceil_le.mpr (le_trans hq (by norm_num))
  exact max_eq_left hc

/-- Witness for C9 at a negative duration. -/
theorem calculateTotalSegments_spec_witness :
    (-300 : ℚ) ≤ 0 ∧ calculateTotalSegments (-300) = 1 :=
  ⟨by norm_num, (calculateTotalSegments_spec 0 (-300) (by norm_num)).2.2⟩

/-- C1: whenever the buffering effect requests a segment, the three
gating conditions held (generated count below currentPlayingIndex + 3,
below the estimate, and no request in flight), the requested index is
the generated count plus one, and it never exceeds the estimate. -/
theorem bufferEngineStep_spec (story : AudioStory) (route : RouteDetails)
    (appState : AppState) (cur : Nat) (generating : Bool) (i : Nat)
    (h : bufferEngineStep (some story) (some route) appState cur generating =
      some i) :
    story.segments.length < cur + 3 ∧
    story.segments.length < story.totalSegmentsEstimate ∧
    generating = false ∧
    i = story.segments.length + 1 ∧
    i ≤ story.totalSegmentsEstimate := by
  simp only [bufferEngineStep] at h
  split at h
  · exact absurd h (by simp)
  · split at h
    next hcond =>
      obtain ⟨h1, h2, h3⟩ := hcond
      injection h with h
      subst h
      exact ⟨h1, h2, h3, rfl, h2⟩
    · exact absurd h (by simp)

/-- Witness for C1: with one segment of three generated, playback at
index 0 and no request in flight, the effect requests segment 2. -/
theorem bufferEngineStep_spec_witness :
    bufferEngineStep (some ⟨3, [], [⟨1, "a", some ()⟩]⟩)
      (some ⟨"s", "e", "1 km", "2 mins", 120⟩) .READY_TO_PLAY 0 false =
      some 2 ∧
    ((1 : Nat) < 0 + 3 ∧ 1 < 3 ∧ false = false ∧ 2 = 1 + 1 ∧ 2 ≤ 3) :=
  ⟨rfl, bufferEngineStep_spec ⟨3, [], [⟨1, "a", some ()⟩]⟩
    ⟨"s", "e", "1 km", "2 mins", 120⟩ .READY_TO_PLAY 0 false 2 rfl⟩

/-- C2: at most one generation request is outstanding.  When the guard
is set on entry, generateNextSegment performs nothing (in particular no
API call); when it runs, its first action is setting the guard, before
any API call; and on every run that gets past the early return the
guard is false again at the end, whether the chain succeeded or
failed. -/
theorem generateNextSegment_single_flight
    (hasRoute hasStory textOk audioOk : Bool) :
    generateNextSegment hasRoute hasStory true textOk audioOk = ([], true) ∧
    ((generateNextSegment hasRoute hasStory true textOk audioOk).1.any
        AppEvent.isApiCall) = false ∧
    ((generateNextSegment true true false textOk audioOk).1.head?) =
      some (.setGuard true) ∧
    (generateNextSegment hasRoute hasStory false textOk audioOk).2 = false := by
  revert hasRoute hasStory textOk audioOk
  decide

/-- C4: pause followed by resume preserves the playback position.
Pausing at time tPause records offset tPause - startTime; resuming at
time tResume starts the clip at exactly that offset and sets the new
start time to tResume - offset; hence the position implied by the
bookkeeping right after the resume equals the position at the pause. -/
theorem pause_resume_position (clock : AudioClock) (tPause tResume : ℚ) :
    (pausePlayback clock tPause).segmentOffset = tPause - clock.startTime ∧
    (resumePlayback (pausePlayback clock tPause) tResume).2 =
      playbackPosition clock tPause ∧
    (resumePlayback (pausePlayback clock tPause) tResume).1.startTime =
      tResume - (pausePlayback clock tPause).segmentOffset ∧
    playbackPosition
      (resumePlayback (pausePlayback clock tPause) tResume).1 tResume =
      playbackPosition clock tPause := by
  refine ⟨rfl, rfl, rfl, ?_⟩
  unfold playbackPosition resumePlayback playSegmentClock pausePlayback
  ring

/-- C10: the directions-OK branch enforces the 4-hour limit: a leg
longer than 14400 seconds produces the error message and no route,
and any route it does produce carries the leg duration, which is at
most 14400 seconds. -/
theorem handleCalculate_duration_limit (legLong legOk : DirectionsLeg)
    (r : RouteDetails)
    (hLong : legLong.durationValue > 14400)
    (hOk : handleCalculateOkRoute legOk = .ok r) :
    handleCalculateOkRoute legLong = .error JOURNEY_TOO_LONG_ERROR ∧
    r.durationSeconds = legOk.durationValue ∧
    r.durationSeconds ≤ 14400 := by
  refine ⟨?_, ?_⟩
  · unfold handleCalculateOkRoute
    rw [if_pos hLong]
  · unfold handleCalculateOkRoute at hOk
    split at hOk
    · exact absurd hOk (by simp)
    next hle =>
      injection hOk with h
      subst h
      exact ⟨rfl, le_of_not_lt hle⟩

/-- Witness for C10: a 20000-second leg is rejected with the message,
and a 100-second leg yields a route with durationSeconds 100. -/
theorem handleCalculate_duration_limit_witness :
    (20000 : ℚ) > 14400 ∧
    handleCalculateOkRoute ⟨"a", "b", "1 km", "2 mins", 100⟩ =
      .ok ⟨"a", "b", "1 km", "2 mins", 100⟩ ∧
    (handleCalculateOkRoute ⟨"x", "y", "9 km", "9 hrs", 20000⟩ =
      .error JOURNEY_TOO_LONG_ERROR ∧
     (100 : ℚ) = 100 ∧ (100 : ℚ) ≤ 14400) := by
  have hOk : handleCalculateOkRoute ⟨"a", "b", "1 km", "2 mins", 100⟩ =
      .ok ⟨"a", "b", "1 km", "2 mins", 100⟩ := by
    unfold handleCalculateOkRoute
    rw [if_neg (by norm_num)]
  exact ⟨by norm_num, hOk,
    handleCalculate_duration_limit ⟨"x", "y", "9 km", "9 hrs", 20000⟩
      ⟨"a", "b", "1 km", "2 mins", 100⟩ ⟨"a", "b", "1 km", "2 mins", 100⟩
      (by norm_num) hOk⟩

/-- C3: when a clip ends with elapsed time at least its duration minus
half a second, the onended callback runs the segment-end handler; the
handler always advances the index by exactly one and clears the clip
offset; if the next clip has audio it is started immediately from
offset 0; if it is absent, playback stops when the next index has
reached the estimate with no background generation running, and
otherwise the player enters the buffering state.  The buffered, stop
and buffering cases take their own inputs so that all hypotheses are
jointly satisfiable. -/
theorem handleSegmentEnd_spec
    (story : AudioStory) (bg : Bool) (st : PlayerState) (d e : ℚ)
    (storyB : AudioStory) (bgB : Bool) (stB : PlayerState)
    (storyS : AudioStory) (stS : PlayerState)
    (storyW : AudioStory) (bgW : Bool) (stW : PlayerState)
    (hEnd : d - 1/2 ≤ e)
    (hBuf : segmentBufferedAt storyB (stB.currentSegmentIndex + 1) = true)
    (hNoBufS : segmentBufferedAt storyS (stS.currentSegmentIndex + 1) = false)
    (hDone : storyS.totalSegmentsEstimate ≤ stS.currentSegmentIndex + 1)
    (hNoBufW : segmentBufferedAt storyW (stW.currentSegmentIndex + 1) = false)
    (hMore : ¬(storyW.totalSegmentsEstimate ≤ stW.currentSegmentIndex + 1 ∧
      bgW = false)) :
    onSegmentEnded d e story bg st = handleSegmentEnd story bg st ∧
    (handleSegmentEnd story bg st).1.currentSegmentIndex =
      st.currentSegmentIndex + 1 ∧
    (handleSegmentEnd story bg st).1.segmentOffset = 0 ∧
    (handleSegmentEnd storyB bgB stB).2 =
      some (stB.currentSegmentIndex + 1, 0) ∧
    ((handleSegmentEnd storyS false stS).1.isPlaying = false ∧
     (handleSegmentEnd storyS false stS).2 = none) ∧
    ((handleSegmentEnd storyW bgW stW).1.isBuffering = true ∧
     (handleSegmentEnd storyW bgW stW).2 = none) := by
  refine ⟨?_, ?_, ?_, ?_, ?_, ?_⟩
  · unfold onSegmentEnded
    rw [if_pos hEnd]
  · dsimp only [handleSegmentEnd]
    split
    · rfl
    · split <;> rfl
  · dsimp only [handleSegmentEnd]
    split
    · rfl
    · split <;> rfl
  · unfold handleSegmentEnd
    rw [if_pos hBuf]
  · unfold handleSegmentEnd
    rw [if_neg (by simp [hNoBufS]), if_pos ⟨hDone, rfl⟩]
    exact ⟨rfl, rfl⟩
  · unfold handleSegmentEnd
    rw [if_neg (by simp [hNoBufW]), if_neg hMore]
    exact ⟨rfl, rfl⟩

/-- Witness for C3: a story with segments 1 and 2 buffered plays
segment 2 on end of segment 1; a one-segment story with the estimate
reached stops; the same story with background generation running
buffers instead. -/
theorem handleSegmentEnd_spec_witness :
    ((10 : ℚ) - 1/2 ≤ 10 ∧
     segmentBufferedAt ⟨3, [], [⟨1, "a", some ()⟩, ⟨2, "b", some ()⟩]⟩ 1 =
       true ∧
     segmentBufferedAt ⟨1, [], [⟨1, "a", some ()⟩]⟩ 1 = false ∧
     (1 : Nat) ≤ 1) ∧
    onSegmentEnded 10 10 ⟨3, [], [⟨1, "a", some ()⟩, ⟨2, "b", some ()⟩]⟩
        false ⟨0, true, false, 0⟩ =
      handleSegmentEnd ⟨3, [], [⟨1, "a", some ()⟩, ⟨2, "b", some ()⟩]⟩
        false ⟨0, true, false, 0⟩ ∧
    (handleSegmentEnd ⟨3, [], [⟨1, "a", some ()⟩, ⟨2, "b", some ()⟩]⟩
        false ⟨0, true, false, 0⟩).1.currentSegmentIndex = 1 ∧
    (handleSegmentEnd ⟨3, [], [⟨1, "a", some ()⟩, ⟨2, "b", some ()⟩]⟩
        false ⟨0, true, false, 0⟩).2 = some (1, 0) ∧
    ((handleSegmentEnd ⟨1, [], [⟨1, "a", some ()⟩]⟩ false
        ⟨0, true, false, 0⟩).1.isPlaying = false ∧
     (handleSegmentEnd ⟨1, [], [⟨1, "a", some ()⟩]⟩ false
        ⟨0, true, false, 0⟩).2 = none) ∧
    ((handleSegmentEnd ⟨1, [], [⟨1, "a", some ()⟩]⟩ true
        ⟨0, true, false, 0⟩).1.isBuffering = true ∧
     (handleSegmentEnd ⟨1, [], [⟨1, "a", some ()⟩]⟩ true
        ⟨0, true, false, 0⟩).2 = none) := by
  have h := handleSegmentEnd_spec
    ⟨3, [], [⟨1, "a", some ()⟩, ⟨2, "b", some ()⟩]⟩ false ⟨0, true, false, 0⟩
    10 10
    ⟨3, [], [⟨1, "a", some ()⟩, ⟨2, "b", some ()⟩]⟩ false ⟨0, true, false, 0⟩
    ⟨1, [], [⟨1, "a", some ()⟩]⟩ ⟨0, true, false, 0⟩
    ⟨1, [], [⟨1, "a", some ()⟩]⟩ true ⟨0, true, false, 0⟩
    (by norm_num) rfl rfl (by norm_num) rfl (by simp)
  exact ⟨⟨by norm_num, rfl, rfl, by norm_num⟩,
    h.1, h.2.1, h.2.2.2.1, h.2.2.2.2.1, h.2.2.2.2.2⟩

/-- C5 counterexample: a background generation run whose text
generation fails (route and story present, guard clear) logs the error
to the console but performs no setGenerationError with a message, so
the failure is not surfaced as a user-facing string. -/
theorem generateNextSegment_error_not_surfaced :
    ((generateNextSegment true true false false true).1.any
        AppEvent.setsUserError) = false ∧
    ((generateNextSegment true true false false true).1.contains
        .logError) = true := by
  decide

/-- C5 as amended: failures during INITIAL generation are surfaced —
whichever of the three awaited calls fails, the app returns to PLANNING
with a non-null generationError — while failures during background
segment generation are caught and logged (the trace contains logError)
but never write a user-facing error string. -/
theorem generation_errors_surfacing
    (e : String) (t a : Except String Unit) (s₀ : AppState)
    (g₀ : Option String) (hasRoute hasStory guard textOk audioOk : Bool) :
    (finalAppState s₀ (handleGenerateStory (.error e) t a) = .PLANNING ∧
     (finalGenerationError g₀
       (handleGenerateStory (.error e) t a)).isSome = true) ∧
    (finalAppState s₀ (handleGenerateStory (.ok ()) (.error e) a) =
       .PLANNING ∧
     (finalGenerationError g₀
       (handleGenerateStory (.ok ()) (.error e) a)).isSome = true) ∧
    (finalAppState s₀ (handleGenerateStory (.ok ()) (.ok ()) (.error e)) =
       .PLANNING ∧
     (finalGenerationError g₀
       (handleGenerateStory (.ok ()) (.ok ()) (.error e))).isSome = true) ∧
    ((generateNextSegment hasRoute hasStory guard textOk audioOk).1.any
        AppEvent.setsUserError) = false ∧
    ((generateNextSegment true true false false audioOk).1.contains
        .logError) = true ∧
    ((generateNextSegment true true false true false).1.contains
        .logError) = true := by
  refine ⟨⟨rfl, rfl⟩, ⟨rfl, rfl⟩, ⟨rfl, rfl⟩, ?_, ?_, ?_⟩
  · cases hasRoute <;> cases hasStory <;> cases guard <;> cases textOk <;>
      cases audioOk <;> rfl
  · cases audioOk <;> rfl
  · rfl

/-- C6: withTimeout yields the wrapped promise value whenever the
promise settles strictly before the timeout, and the Error(errorMsg)
rejection whenever it has not settled when the timer fires; and every
generation call in App.tsx — the outline, segment-text and
segment-audio calls of both handleGenerateStory and
generateNextSegment — is wrapped in such a timeout. -/
theorem withTimeout_spec {α : Type} (tFast tSlow ms : ℚ)
    (outcome : Except String α) (errorMsg : String)
    (o t a : Except String Unit)
    (hasRoute hasStory guard textOk audioOk : Bool)
    (hFast : tFast < ms) (hSlow : ms < tSlow) :
    withTimeout tFast outcome ms errorMsg = outcome ∧
    withTimeout tSlow outcome ms errorMsg = .error errorMsg ∧
    allCallsWrapped (handleGenerateStory o t a) = true ∧
    allCallsWrapped
      (generateNextSegment hasRoute hasStory guard textOk audioOk).1 =
      true := by
  refine ⟨?_, ?_, ?_, ?_⟩
  · unfold withTimeout race
    rw [if_pos (le_of_lt hFast)]
  · unfold withTimeout race
    rw [if_neg (not_le.mpr hSlow)]
  · rcases o with eo | uo
    · rfl
    · rcases t with et | ut
      · rfl
      · rcases a with ea | ua
        · rfl
        · rfl
  · cases hasRoute <;> cases hasStory <;> cases guard <;> cases textOk <;>
      cases audioOk <;> rfl

/-- Witness for C6: a promise settling at time 0 beats a 1-ms timer; a
promise still pending at time 2 loses to it. -/
theorem withTimeout_spec_witness :
    ((0 : ℚ) < 1 ∧ (1 : ℚ) < 2) ∧
    withTimeout (0 : ℚ) (Except.ok 7) 1 "late" = Except.ok 7 ∧
    withTimeout (2 : ℚ) (Except.ok 7) 1 "late" = Except.error "late" ∧
    allCallsWrapped
      (handleGenerateStory (.ok ()) (.ok ()) (.ok ())) = true ∧
    allCallsWrapped (generateNextSegment true true false true true).1 =
      true := by
  have h := @withTimeout_spec Nat 0 2 1 (Except.ok 7) "late"
    (.ok ()) (.ok ()) (.ok ()) true true false true true
    (by norm_num) (by norm_num)
  exact ⟨⟨by norm_num, by norm_num⟩, h.1, h.2.1, h.2.2.1, h.2.2.2⟩

/-- C7, evaluated at the failing input: when the model responds with
the valid JSON text "[]" (an empty array) and two segments are needed,
generateStoryOutline pads with outline[-1], which is undefined, and
returns two UNDEFINED values — neither strings nor the fallback copies
the claim (and the declared return type Promise of string array)
require.  The remaining parts of the claim behave as stated: a failed
call yields fallback copies, and generateSegment substitutes its
fallback for missing or empty (after trimming) text. -/
theorem generateStoryOutline_empty_array_bug :
    generateStoryOutline 2 (.ok (.jarr [])) = [.jundef, .jundef] ∧
    generateStoryOutline 2 (.ok (.jarr [])) ≠
      List.replicate 2 (.jstr OUTLINE_FALLBACK) ∧
    generateStoryOutline 2 (.error ()) =
      [.jstr OUTLINE_FALLBACK, .jstr OUTLINE_FALLBACK] ∧
    generateSegment 3 none = ⟨3, SEGMENT_FALLBACK, none⟩ ∧
    generateSegment 3 (some "  ") = ⟨3, SEGMENT_FALLBACK, none⟩ := by
  refine ⟨rfl, ?_, rfl, rfl, ?_⟩
  · intro h
    have h2 : ([JsValue.jundef, JsValue.jundef] : List JsValue) =
        [.jstr OUTLINE_FALLBACK, .jstr OUTLINE_FALLBACK] := h
    injection h2 with h3 h4
    exact JsValue.noConfusion h3
  · decide

/-- Helper for C8: appending a segment whose index is absent from a
strictly index-sorted list and re-sorting by index yields a strictly
index-sorted list again. -/
theorem insertionSort_index_invariant (l : List StorySegment)
    (x : StorySegment)
    (hInv : l.Pairwise fun a b => a.index < b.index)
    (hx : l.any (fun s => s.index == x.index) = false) :
    ((l ++ [x]).insertionSort fun a b => a.index ≤ b.index).Pairwise
      (fun a b => a.index < b.index) := by
  have hsorted :
      ((l ++ [x]).insertionSort fun a b => a.index ≤ b.index).Pairwise
        (fun a b => a.index ≤ b.index) :=
    List.sorted_insertionSort _ _
  have hperm :=
    List.perm_insertionSort (fun a b : StorySegment => a.index ≤ b.index)
      (l ++ [x])
  have hxnot : ∀ a ∈ l, a.index ≠ x.index := by
    intro a ha
    have := List.any_eq_false.mp hx a ha
    simpa using this
  have hne : (l ++ [x]).Pairwise fun a b => a.index ≠ b.index := by
    rw [List.pairwise_append]
    refine ⟨hInv.imp (fun h => Nat.ne_of_lt h),
      List.pairwise_singleton _ _, ?_⟩
    intro a ha b hb
    rw [List.mem_singleton] at hb
    subst hb
    exact hxnot a ha
  have hneS :
      ((l ++ [x]).insertionSort fun a b => a.index ≤ b.index).Pairwise
        (fun a b => a.index ≠ b.index) :=
    (List.Perm.pairwise_iff (fun h => h.symm) hperm).mpr hne
  exact (hsorted.and hneS).imp fun h => Nat.lt_of_le_of_ne h.1 h.2

/-- C8: the setStory updater preserves the invariant that the segment
list is strictly sorted by index (hence duplicate-free): with a
duplicate index the previous state is returned unchanged; otherwise the
result is a permutation of the previous list with the new segment
appended, sorted by ascending index, and the strict invariant holds
again. -/
theorem setStoryUpdater_spec
    (prev : AudioStory) (n : StorySegment)
    (prevDup : AudioStory) (nDup : StorySegment)
    (prevNew : AudioStory) (nNew : StorySegment)
    (hInv : prev.segments.Pairwise fun a b => a.index < b.index)
    (hDup : prevDup.segments.any (fun s => s.index == nDup.index) = true)
    (hNew : prevNew.segments.any (fun s => s.index == nNew.index) = false) :
    (setStoryUpdater prev n).segments.Pairwise
      (fun a b => a.index < b.index) ∧
    setStoryUpdater prevDup nDup = prevDup ∧
    ((setStoryUpdater prevNew nNew).segments.Perm
       (prevNew.segments ++ [nNew]) ∧
     (setStoryUpdater prevNew nNew).segments.Pairwise
       (fun a b => a.index ≤ b.index)) := by
  refine ⟨?_, ?_, ?_⟩
  · unfold setStoryUpdater
    split
    · exact hInv
    next h =>
      rw [Bool.not_eq_true] at h
      exact insertionSort_index_invariant prev.segments n hInv h
  · unfold setStoryUpdater
    rw [if_pos hDup]
  · unfold setStoryUpdater
    rw [if_neg (by simp [hNew])]
    exact ⟨List.perm_insertionSort _ _, List.sorted_insertionSort _ _⟩

/-- Witness for C8: inserting index 2 into a story holding indices 1
and 3 keeps the list strictly sorted; inserting index 3 again leaves
the story unchanged. -/
theorem setStoryUpdater_spec_witness :
    (([⟨1, "a", some ()⟩, ⟨3, "c", none⟩] : List StorySegment).Pairwise
       (fun a b => a.index < b.index) ∧
     ([⟨1, "a", some ()⟩, ⟨3, "c", none⟩] : List StorySegment).any
       (fun s => s.index == 3) = true ∧
     ([⟨1, "a", some ()⟩, ⟨3, "c", none⟩] : List StorySegment).any
       (fun s => s.index == 2) = false) ∧
    (setStoryUpdater ⟨3, [], [⟨1, "a", some ()⟩, ⟨3, "c", none⟩]⟩
        ⟨2, "b", some ()⟩).segments.Pairwise
      (fun a b => a.index < b.index) ∧
    setStoryUpdater ⟨3, [], [⟨1, "a", some ()⟩, ⟨3, "c", none⟩]⟩
        ⟨3, "x", none⟩ = ⟨3, [], [⟨1, "a", some ()⟩, ⟨3, "c", none⟩]⟩ ∧
    ((setStoryUpdater ⟨3, [], [⟨1, "a", some ()⟩, ⟨3, "c", none⟩]⟩
        ⟨2, "b", some ()⟩).segments.Perm
      ([⟨1, "a", some ()⟩, ⟨3, "c", none⟩] ++ [⟨2, "b", some ()⟩]) ∧
     (setStoryUpdater ⟨3, [], [⟨1, "a", some ()⟩, ⟨3, "c", none⟩]⟩
        ⟨2, "b", some ()⟩).segments.Pairwise
      (fun a b => a.index ≤ b.index)) := by
  have h := setStoryUpdater_spec
    ⟨3, [], [⟨1, "a", some ()⟩, ⟨3, "c", none⟩]⟩ ⟨2, "b", some ()⟩
    ⟨3, [], [⟨1, "a", some ()⟩, ⟨3, "c", none⟩]⟩ ⟨3, "x", none⟩
    ⟨3, [], [⟨1, "a", some ()⟩, ⟨3, "c", none⟩]⟩ ⟨2, "b", some ()⟩
    (by decide) rfl rfl
  exact ⟨⟨by decide, rfl, rfl⟩, h.1, h.2.1, h.2.2⟩

end Wayfarer
